import Mathlib

/-!
Verification development for the cross-source endpoint comparison engine of
the mcp-charles repository (src/server.py).  The Python functions
`_deep_compare_structures`, `_compare_parameters`, `_try_parse_json`,
`_map_endpoints_across_files`, `_compare_request_response`,
`_analyze_api_differences` and `compare_api_structures` are shallowly
embedded over a `Value` type modelling the JSON-like Python values the
engine manipulates (None, bool, int, str, list, dict).  Python dicts are
modelled as insertion-ordered association lists with string keys, matching
CPython 3.7+ iteration order; float literals do not occur in any claim and
are outside the modelled value domain.
-/

/-- A Python/JSON value as handled by the comparison engine. -/
inductive Value where
  | none : Value
  | bool : Bool → Value
  | int : Int → Value
  | str : String → Value
  | list : List Value → Value
  | dict : List (String × Value) → Value

/-- First-match lookup in an association list: Python dict `d[k]` / `k in d`. -/
def alookup {α : Type} (k : String) : List (String × α) → Option α
  | [] => Option.none
  | (k2, v) :: rest => if k = k2 then some v else alookup k rest

/-- Python dict assignment `d[k] = v`: overwrite in place, else append. -/
def dictSet {α : Type} (d : List (String × α)) (k : String) (v : α) : List (String × α) :=
  if (alookup k d).isSome then d.map (fun p => if p.1 = k then (k, v) else p)
  else d ++ [(k, v)]

/-- Python truthiness of a value (`bool(v)`). -/
def pyTruthy : Value → Bool
  | .none => false
  | .bool b => b
  | .int n => !(n = 0)
  | .str s => !(s = "")
  | .list l => !l.isEmpty
  | .dict l => !l.isEmpty

/-- `type(v).__name__` in Python. -/
def pyType : Value → String
  | .none => "NoneType"
  | .bool _ => "bool"
  | .int _ => "int"
  | .str _ => "str"
  | .list _ => "list"
  | .dict _ => "dict"

mutual

/-- Python `==` on modelled values: numeric cross-type equality between
bool and int (`True == 1`), order-insensitive dict equality, positional
list equality. -/
def pyEq : Value → Value → Bool
  | .none, .none => true
  | .bool a, .bool b => a = b
  | .bool a, .int n => if a then n = 1 else n = 0
  | .int n, .bool a => if a then n = 1 else n = 0
  | .int a, .int b => a = b
  | .str a, .str b => a = b
  | .list a, .list b => pyEqList a b
  | .dict a, .dict b => a.length = b.length && pyEqDict a b
  | _, _ => false

def pyEqList : List Value → List Value → Bool
  | [], [] => true
  | x :: xs, y :: ys => pyEq x y && pyEqList xs ys
  | _, _ => false

def pyEqDict : List (String × Value) → List (String × Value) → Bool
  | [], _ => true
  | (k, v) :: rest, b =>
    (match alookup k b with
     | some v2 => pyEq v v2
     | Option.none => false) && pyEqDict rest b

end

mutual

/-- Size measure on values, used for inductive proofs about the comparators. -/
def rank : Value → Nat
  | .none => 0
  | .bool _ => 0
  | .int _ => 0
  | .str _ => 0
  | .list l => rankList l + 1
  | .dict l => rankDict l + 1

def rankList : List Value → Nat
  | [] => 0
  | x :: xs => rank x + rankList xs

def rankDict : List (String × Value) → Nat
  | [] => 0
  | (_, v) :: xs => rank v + rankDict xs

end

mutual

/-- Python `repr(v)` for the modelled values (strings rendered with single
quotes and no escaping, which is exact for the quote-free strings that
occur in this development). -/
def pyRepr : Value → String
  | .none => "None"
  | .bool b => if b then "True" else "False"
  | .int n => toString n
  | .str s => "\x27" ++ s ++ "\x27"
  | .list l => "[" ++ pyReprList l ++ "]"
  | .dict l => "\x7b" ++ pyReprDict l ++ "\x7d"

def pyReprList : List Value → String
  | [] => ""
  | [x] => pyRepr x
  | x :: y :: xs => pyRepr x ++ ", " ++ pyReprList (y :: xs)

def pyReprDict : List (String × Value) → String
  | [] => ""
  | [(k, v)] => "\x27" ++ k ++ "\x27: " ++ pyRepr v
  | (k, v) :: p :: xs => "\x27" ++ k ++ "\x27: " ++ pyRepr v ++ ", " ++ pyReprDict (p :: xs)

end

/-- Python `str(v)`: the raw string for str values, `repr` otherwise. -/
def pyStr : Value → String
  | .str s => s
  | v => pyRepr v

/-- Python slicing `s[:100]`. -/
def truncate100 (s : String) : String := String.mk (s.data.take 100)

/-- `str(v)[:100]` as it appears throughout the comparators. -/
def strTrunc (v : Value) : Value := Value.str (truncate100 (pyStr v))

/-- `isinstance(v, (dict, list))`. -/
def isComposite : Value → Bool
  | .dict _ => true
  | .list _ => true
  | _ => false

/-- `".".join(path)`. -/
def joinPath (path : List String) : String := String.intercalate "." path

/-- `".".join(path) or "root"`. -/
def joinOrRoot (path : List String) : String :=
  if joinPath path = "" then "root" else joinPath path

/-- The second pass of the dict case of `_deep_compare_structures`: keys of
`obj2` absent from `obj1` produce `field_missing_in_first` entries. -/
def dcs_dict_pass2 (a b : List (String × Value)) (path : List String) (iv : Bool) : List Value :=
  (b.filter (fun p => (alookup p.1 a).isNone)).map (fun p =>
    Value.dict [("path", .str (joinPath (path ++ [p.1]))),
                ("difference", .str "field_missing_in_first"),
                ("value", if iv then strTrunc p.2 else .none)])

/-- The trailing-extra-items pass of the list case of
`_deep_compare_structures`. -/
def dcs_extras (a b : List Value) (path : List String) (iv : Bool) : List Value :=
  if a.length > b.length then
    (a.drop b.length).enum.map (fun p =>
      Value.dict [("path", .str (joinPath (path ++ ["[" ++ toString (b.length + p.1) ++ "]"]))),
                  ("difference", .str "extra_item_in_first"),
                  ("value", if iv then strTrunc p.2 else .none)])
  else if b.length > a.length then
    (b.drop a.length).enum.map (fun p =>
      Value.dict [("path", .str (joinPath (path ++ ["[" ++ toString (a.length + p.1) ++ "]"]))),
                  ("difference", .str "extra_item_in_second"),
                  ("value", if iv then strTrunc p.2 else .none)])
  else []

mutual

/-- `_deep_compare_structures(obj1, obj2, path, include_values)` from
src/server.py lines 1773-1886.  Diff entries are Python dicts and are
modelled as `Value.dict`s with the exact key order of the source literals. -/
def deep_compare_structures : Value → Value → List String → Bool → List Value
  | .dict a, .dict b, path, iv => dcs_dict_pass1 a b path iv ++ dcs_dict_pass2 a b path iv
  | .list a, .list b, path, iv =>
    (if a.length = b.length then [] else
      [Value.dict [("path", .str (joinOrRoot path)),
                   ("difference", .str "array_length_changed"),
                   ("length1", .int a.length),
                   ("length2", .int b.length)]])
    ++ dcs_list_items a b 0 path iv ++ dcs_extras a b path iv
  | o1, o2, path, iv =>
    if pyType o1 ≠ pyType o2 then
      [Value.dict [("path", .str (joinOrRoot path)),
                   ("difference", .str "type_changed"),
                   ("type1", .str (pyType o1)),
                   ("type2", .str (pyType o2)),
                   ("value1", if iv then strTrunc o1 else .none),
                   ("value2", if iv then strTrunc o2 else .none)]]
    else if pyEq o1 o2 then []
    else
      [Value.dict [("path", .str (joinOrRoot path)),
                   ("difference", .str "value_changed"),
                   ("value1", strTrunc o1),
                   ("value2", strTrunc o2)]]

/-- First pass of the dict case: iterate `obj1` in insertion order, with
per-key value comparison or recursion depending on `isinstance(obj1[key],
(dict, list))`. -/
def dcs_dict_pass1 : List (String × Value) → List (String × Value) → List String → Bool → List Value
  | [], _, _, _ => []
  | (k, v) :: rest, b, path, iv =>
    (match alookup k b with
     | Option.none =>
       [Value.dict [("path", .str (joinPath (path ++ [k]))),
                    ("difference", .str "field_missing_in_second"),
                    ("value", if iv then strTrunc v else .none)]]
     | some v2 =>
       if isComposite v then deep_compare_structures v v2 (path ++ [k]) iv
       else if pyEq v v2 then []
       else
         [Value.dict [("path", .str (joinPath (path ++ [k]))),
                      ("difference", .str "value_changed"),
                      ("value1", strTrunc v),
                      ("value2", strTrunc v2)]])
    ++ dcs_dict_pass1 rest b path iv

/-- Element-wise pass of the list case, up to the shorter length, with the
running index carried for path rendering. -/
def dcs_list_items : List Value → List Value → Nat → List String → Bool → List Value
  | x :: xs, y :: ys, i, path, iv =>
    (if isComposite x then deep_compare_structures x y (path ++ ["[" ++ toString i ++ "]"]) iv
     else if pyEq x y then []
     else
       [Value.dict [("path", .str (joinPath (path ++ ["[" ++ toString i ++ "]"]))),
                    ("difference", .str "array_item_changed"),
                    ("value1", strTrunc x),
                    ("value2", strTrunc y)]])
    ++ dcs_list_items xs ys (i + 1) path iv
  | _, _, _, _, _ => []

end

/-! ## A JSON reader modelling `json.loads`

Recursive descent over the character list, with a fuel argument bounded by
the input length so that the definition is structurally recursive.  The
modelled value domain has no floats, so numeric literals with a fraction or
exponent are treated as outside the domain (they do not occur in any
claim); `\u` escapes are likewise unmodelled.  A failure (`Option.none`)
models `json.JSONDecodeError`. -/

def skipWs : List Char → List Char
  | [] => []
  | c :: cs => if c = ' ' ∨ c = '\t' ∨ c = '\n' ∨ c = '\r' then skipWs cs else c :: cs

def jsonEscape (e : Char) : Option Char :=
  if e = '"' ∨ e = '/' then some e
  else if e = '\\' then some '\\'
  else if e = 'n' then some '\n'
  else if e = 't' then some '\t'
  else if e = 'r' then some '\r'
  else if e = 'b' then some (Char.ofNat 8)
  else if e = 'f' then some (Char.ofNat 12)
  else Option.none

def parseStringChars : List Char → Option (List Char × List Char)
  | [] => Option.none
  | '"' :: rest => some ([], rest)
  | '\\' :: e :: rest =>
    (jsonEscape e).bind (fun c => (parseStringChars rest).map (fun p => (c :: p.1, p.2)))
  | c :: rest => (parseStringChars rest).map (fun p => (c :: p.1, p.2))

def spanDigits : List Char → (List Char × List Char)
  | [] => ([], [])
  | c :: cs => if c.isDigit then ((c :: (spanDigits cs).1), (spanDigits cs).2) else ([], c :: cs)

def digitsToNat (ds : List Char) : Nat :=
  ds.foldl (fun acc c => 10 * acc + (c.toNat - 48)) 0

/-- Parse a JSON integer literal (leading zeros rejected as in Python;
fraction/exponent suffixes are outside the modelled domain). -/
def parseIntToken (cs : List Char) : Option (Value × List Char) :=
  let neg := cs.head? = some '-'
  let body := if neg then cs.tail else cs
  let ds := (spanDigits body).1
  let rest := (spanDigits body).2
  if ds.isEmpty then Option.none
  else if ds.length > 1 ∧ ds.head? = some '0' then Option.none
  else if rest.head? = some '.' ∨ rest.head? = some 'e' ∨ rest.head? = some 'E' then Option.none
  else
    let n : Int := digitsToNat ds
    some (.int (if neg then -n else n), rest)

mutual

def parseValueF : Nat → List Char → Option (Value × List Char)
  | 0, _ => Option.none
  | fuel + 1, cs =>
    match skipWs cs with
    | 'n' :: 'u' :: 'l' :: 'l' :: rest => some (Value.none, rest)
    | 't' :: 'r' :: 'u' :: 'e' :: rest => some (.bool true, rest)
    | 'f' :: 'a' :: 'l' :: 's' :: 'e' :: rest => some (.bool false, rest)
    | '"' :: rest => (parseStringChars rest).map (fun p => (.str (String.mk p.1), p.2))
    | '[' :: rest =>
      (match skipWs rest with
       | ']' :: rest2 => some (.list [], rest2)
       | rest2 => (parseElemsF fuel rest2).map (fun p => (.list p.1, p.2)))
    | c :: rest =>
      if c = Char.ofNat 123 then
        (match skipWs rest with
         | d :: rest2 =>
           if d = Char.ofNat 125 then some (.dict [], rest2)
           else (parseMembersF fuel (d :: rest2)).map (fun p => (.dict p.1, p.2))
         | [] => Option.none)
      else parseIntToken (c :: rest)
    | [] => Option.none

def parseElemsF : Nat → List Char → Option (List Value × List Char)
  | 0, _ => Option.none
  | fuel + 1, cs =>
    (parseValueF fuel cs).bind (fun p =>
      match skipWs p.2 with
      | ',' :: rest => (parseElemsF fuel rest).map (fun q => (p.1 :: q.1, q.2))
      | ']' :: rest => some ([p.1], rest)
      | _ => Option.none)

def parseMembersF : Nat → List Char → Option (List (String × Value) × List Char)
  | 0, _ => Option.none
  | fuel + 1, cs =>
    match skipWs cs with
    | '"' :: rest =>
      (parseStringChars rest).bind (fun kp =>
        match skipWs kp.2 with
        | ':' :: rest2 =>
          (parseValueF fuel rest2).bind (fun vp =>
            match skipWs vp.2 with
            | ',' :: rest3 => (parseMembersF fuel rest3).map (fun q => ((String.mk kp.1, vp.1) :: q.1, q.2))
            | d :: rest3 =>
              if d = Char.ofNat 125 then some ([(String.mk kp.1, vp.1)], rest3) else Option.none
            | [] => Option.none)
        | _ => Option.none)
    | _ => Option.none

end

/-- `json.loads(s)`, returning `Option.none` on `JSONDecodeError`. -/
def jsonLoads (s : String) : Option Value :=
  (parseValueF (s.length + 1) s.data).bind
    (fun p => if skipWs p.2 = [] then some p.1 else Option.none)

/-- `_try_parse_json(payload)` from src/server.py lines 1762-1771. -/
def try_parse_json (payload : Value) : Value :=
  match payload with
  | .str s => (jsonLoads s).getD (.str s)
  | v => v

example : jsonLoads "\x7b\"status\":\"OK\"\x7d" = some (.dict [("status", .str "OK")]) := rfl

example : jsonLoads "123" = some (.int 123) := rfl

example : jsonLoads "dadadadadad" = Option.none := rfl

example : jsonLoads " [1, 2, true, null] " = some (.list [.int 1, .int 2, .bool true, .none]) := rfl

/-! ## `_compare_parameters` (src/server.py lines 1531-1639)

The function recurses through looked-up dict values, which is not a
structural descent, so the embedding is driven by a fuel argument that
every recursive call decrements; the wrapper supplies fuel exceeding the
total number of nodes of both arguments, which bounds the length of any
call chain.  CPython iterates `set(param1) | set(param2)` in an
unspecified hash-dependent order; the model fixes the deterministic
first-occurrence order of `keys(param1) ++ keys(param2)`. -/

def dictUpdate (d : List (String × Value)) (new : List (String × Value)) : List (String × Value) :=
  new.foldl (fun acc p => dictSet acc p.1 p.2) d

/-- `v is None`. -/
def isNoneV : Value → Bool
  | .none => true
  | _ => false

def dedupFirstAux : List String → List String → List String
  | [], _ => []
  | k :: rest, seen => if k ∈ seen then dedupFirstAux rest seen else k :: dedupFirstAux rest (k :: seen)

mutual

def nodes : Value → Nat
  | .list l => nodesList l + 1
  | .dict l => nodesDict l + 1
  | _ => 1

def nodesList : List Value → Nat
  | [] => 0
  | x :: xs => nodes x + nodesList xs + 1

def nodesDict : List (String × Value) → Nat
  | [] => 0
  | (_, v) :: xs => nodes v + nodesDict xs + 1

end

mutual

def compare_parameters_fuel : Nat → Value → Value → String → String → List String → List (String × Value)
  | 0, _, _, _, _, _ => []
  | _ + 1, .none, .none, _, _, _ => []
  | _ + 1, .none, param2, _, _, path =>
    [(if path.isEmpty then "root" else joinPath path,
      Value.dict [("type", .str "missing_in_first"),
                  ("value", if isNoneV param2 then .str "None" else strTrunc param2)])]
  | _ + 1, param1, .none, _, _, path =>
    [(if path.isEmpty then "root" else joinPath path,
      Value.dict [("type", .str "missing_in_second"),
                  ("value", if isNoneV param1 then .str "None" else strTrunc param1)])]
  | fuel + 1, .dict a, .dict b, file1, file2, path =>
    cp_dict_keys fuel (dedupFirstAux (a.map Prod.fst ++ b.map Prod.fst) []) a b file1 file2 path []
  | fuel + 1, .list a, .list b, file1, file2, path =>
    let acc0 : List (String × Value) :=
      if a.length ≠ b.length then
        [(if path.isEmpty then "root" else joinPath path,
          Value.dict [("type", .str "length_mismatch"),
                      (file1 ++ "_length", .int a.length),
                      (file2 ++ "_length", .int b.length)])]
      else []
    let acc1 := cp_list_items fuel a b file1 file2 path 0 acc0
    let extra1 := (a.drop b.length).enum.map (fun p =>
      (joinPath (path ++ ["[" ++ toString (b.length.min a.length + p.1) ++ "]"]),
       Value.dict [("type", .str "extra_in_first"), ("value", strTrunc p.2)]))
    let extra2 := (b.drop a.length).enum.map (fun p =>
      (joinPath (path ++ ["[" ++ toString (a.length.min b.length + p.1) ++ "]"]),
       Value.dict [("type", .str "extra_in_second"), ("value", strTrunc p.2)]))
    (extra1 ++ extra2).foldl (fun acc p => dictSet acc p.1 p.2) acc1
  | _ + 1, p1, p2, file1, file2, path =>
    let parsed1 := try_parse_json p1
    let parsed2 := try_parse_json p2
    if pyType parsed1 ≠ pyType parsed2 then
      [(if path.isEmpty then "root" else joinPath path,
        Value.dict [("type", .str "type_mismatch"),
                    (file1 ++ "_type", .str (pyType parsed1)),
                    (file2 ++ "_type", .str (pyType parsed2)),
                    (file1 ++ "_value", strTrunc parsed1),
                    (file2 ++ "_value", strTrunc parsed2)])]
    else if pyEq parsed1 parsed2 then []
    else
      [(if path.isEmpty then "root" else joinPath path,
        Value.dict [("type", .str "value_mismatch"),
                    (file1 ++ "_value", strTrunc parsed1),
                    (file2 ++ "_value", strTrunc parsed2)])]

def cp_dict_keys : Nat → List String → List (String × Value) → List (String × Value) → String → String → List String → List (String × Value) → List (String × Value)
  | 0, _, _, _, _, _, _, acc => acc
  | _ + 1, [], _, _, _, _, _, acc => acc
  | fuel + 1, key :: ks, a, b, file1, file2, path, acc =>
    let acc2 :=
      match alookup key a, alookup key b with
      | Option.none, v2 =>
        dictSet acc (joinPath (path ++ [key]))
          (Value.dict [("type", .str "missing_in_first"), ("value", strTrunc (v2.getD .none))])
      | some v1, Option.none =>
        dictSet acc (joinPath (path ++ [key]))
          (Value.dict [("type", .str "missing_in_second"), ("value", strTrunc v1)])
      | some v1, some v2 =>
        dictUpdate acc (compare_parameters_fuel fuel v1 v2 file1 file2 (path ++ [key]))
    cp_dict_keys fuel ks a b file1 file2 path acc2

def cp_list_items : Nat → List Value → List Value → String → String → List String → Nat → List (String × Value) → List (String × Value)
  | 0, _, _, _, _, _, _, acc => acc
  | fuel + 1, x :: xs, y :: ys, file1, file2, path, i, acc =>
    cp_list_items fuel xs ys file1 file2 path (i + 1)
      (dictUpdate acc (compare_parameters_fuel fuel x y file1 file2 (path ++ ["[" ++ toString i ++ "]"])))
  | _ + 1, _, _, _, _, _, _, acc => acc

end

/-- `_compare_parameters(param1, param2, file1, file2, path)`. -/
def compare_parameters (param1 param2 : Value) (file1 file2 : String) (path : List String) : List (String × Value) :=
  compare_parameters_fuel (nodes param1 + nodes param2 + 1) param1 param2 file1 file2 path

example :
    compare_parameters (.str "\x7b\"status\":\"OK\"\x7d") (.dict [("status", .str "FAIL")]) "f1" "f2" [] =
      [("root", Value.dict [("type", .str "value_mismatch"),
                            ("f1_value", .str "\x7b\x27status\x27: \x27OK\x27\x7d"),
                            ("f2_value", .str "\x7b\x27status\x27: \x27FAIL\x27\x7d")])] := rfl

example : compare_parameters (.dict [("a", .int 1)]) (.dict [("a", .int 1)]) "f1" "f2" [] = [] := rfl

example : deep_compare_structures (.int 3) (.int 3) [] true = [] := rfl

example : deep_compare_structures (.dict [("a", .int 1)]) (.dict [("a", .int 1)]) [] true = [] := rfl

example :
    deep_compare_structures (.list [.int 1, .int 2, .int 3]) (.list [.int 1, .int 2]) [] true =
      [Value.dict [("path", .str "root"), ("difference", .str "array_length_changed"),
                   ("length1", .int 3), ("length2", .int 2)],
       Value.dict [("path", .str "[2]"), ("difference", .str "extra_item_in_first"),
                   ("value", .str "3")]] := rfl

/-! ## Python attribute/subscript operations in the `Except` monad

`_map_endpoints_across_files` and `_analyze_api_differences` can raise
(`AttributeError` on `.get`/`.items()` of a non-dict, `TypeError` on
`in`/`[...]` of unsupported receivers, `KeyError` on a missing dict key),
and nothing inside them catches these except the explicitly marked
`try/except` blocks; the embedding therefore runs in `Except String`. -/

def pyDotGet (v : Value) (k : String) (default : Value) : Except String Value :=
  match v with
  | .dict l => .ok ((alookup k l).getD default)
  | _ => .error "AttributeError"

def pySubscript (v : Value) (k : String) : Except String Value :=
  match v with
  | .dict l =>
    (match alookup k l with
     | some x => .ok x
     | Option.none => .error "KeyError")
  | _ => .error "TypeError"

def matchesHead : List Char → List Char → Bool
  | [], _ => true
  | _ :: _, [] => false
  | c :: cs, d :: ds => c = d && matchesHead cs ds

def strContainsAux (pat : List Char) : List Char → Bool
  | [] => pat.isEmpty
  | c :: cs => matchesHead pat (c :: cs) || strContainsAux pat cs

/-- Python substring test `pat in hay`. -/
def strContains (hay pat : String) : Bool := strContainsAux pat.data hay.data

/-- Python `s.endswith(suffix)`. -/
def strEndsWith (s suffix : String) : Bool :=
  decide (s.data.drop (s.data.length - suffix.data.length) = suffix.data)

/-- Python `k in v`: key test for dicts, substring for strings, membership
for lists, `TypeError` otherwise. -/
def pyInKey (k : String) (v : Value) : Except String Bool :=
  match v with
  | .dict l => .ok (alookup k l).isSome
  | .str s => .ok (strContains s k)
  | .list l => .ok (l.any (fun x => pyEq (.str k) x))
  | _ => .error "TypeError"

def pyItems : Value → Except String (List (String × Value))
  | .dict l => .ok l
  | _ => .error "AttributeError"

/-- Python `a or b` (value-returning, by truthiness). -/
def pyOr (a b : Value) : Value := if pyTruthy a then a else b

/-- The pattern `if k not in c: c[k] = {}` followed by `c[k][file] = v`. -/
def subAssignDict (container : List (String × Value)) (k file : String) (v : Value) : Except String (List (String × Value)) :=
  match alookup k container with
  | Option.none => .ok (dictSet container k (.dict [(file, v)]))
  | some (.dict l) => .ok (dictSet container k (.dict (dictSet l file v)))
  | some _ => .error "TypeError"

/-- The status/message extraction of `_compare_request_response` (inside its
`try` block, so a `TypeError` on a non-dict summary container is absorbed). -/
def crr_status (c : List (String × Value)) (body : Value) (file : String) : List (String × Value) :=
  match body with
  | .dict bl =>
    let status := pyOr (pyOr ((alookup "status" bl).getD .none) ((alookup "statusCode" bl).getD .none))
                       ((alookup "code" bl).getD .none)
    let message := pyOr ((alookup "message" bl).getD .none) ((alookup "statusMessage" bl).getD .none)
    if pyTruthy status || pyTruthy message then
      (match alookup "response_status_summary" c with
       | Option.none =>
         dictSet c "response_status_summary" (.dict [(file, .dict [("status", status), ("message", message)])])
       | some (.dict l) =>
         dictSet c "response_status_summary" (.dict (dictSet l file (.dict [("status", status), ("message", message)])))
       | some _ => c)
    else c
  | _ => c

/-- `_compare_request_response(request, response, file_name, result_container)`
from src/server.py lines 1487-1529. -/
def compare_request_response (request response : Value) (file_name : String) (container : List (String × Value)) : Except String (List (String × Value)) := do
  let c1 ← (if pyTruthy request then subAssignDict container "request_differences" file_name request
            else pure container)
  if pyTruthy response then do
    let c2 ← subAssignDict c1 "response_differences" file_name response
    let bodyV ← pyDotGet response "body" .none
    if pyTruthy bodyV then
      match bodyV with
      | .str s =>
        (match jsonLoads s with
         | some body => pure (crr_status c2 body file_name)
         | Option.none => pure c2)
      | body => pure (crr_status c2 body file_name)
    else pure c2
  else pure c1

/-! ## `_map_endpoints_across_files` (src/server.py lines 1365-1485) -/

structure EndpointData where
  method : Value
  path : Value
  has_changes : Bool
  present_in : List String
  missing_in : List Value
  instance_counts : List (String × Nat)
  differences : List (String × Value)

def initEndpointData (method full_path : Value) : EndpointData :=
  { method := method, path := full_path, has_changes := false, present_in := [], missing_in := [],
    instance_counts := [],
    differences := [("request", .dict []), ("response", .dict []), ("headers", .dict []),
                    ("status_codes", .dict []), ("parameters", .dict [])] }

def modifyAt (m : List (String × EndpointData)) (k : String) (f : EndpointData → EndpointData) : List (String × EndpointData) :=
  m.map (fun p => if p.1 = k then (p.1, f p.2) else p)

/-- `instance_counts.setdefault(file, 0); instance_counts[file] += 1`. -/
def bumpCount (cs : List (String × Nat)) (file : String) : List (String × Nat) :=
  match alookup file cs with
  | some n => cs.map (fun p => if p.1 = file then (p.1, n + 1) else p)
  | Option.none => cs ++ [(file, 1)]

/-- The `for other_file in present_in` loop of `_map_endpoints_across_files`
(lines 1453-1483): each pair key is overwritten with a fresh comparison
container holding `instance_details`, optionally `status_difference`, and
the output of `_compare_request_response`. -/
def pairwiseFold (files : List String) (file_name : String) (entry_idx : Nat) (ts status requestV responseV : Value) (diffs : List (String × Value)) : Except String (List (String × Value)) :=
  match files with
  | [] => .ok diffs
  | other :: rest =>
    if other ≠ file_name then do
      let ck := file_name ++ "_vs_" ++ other
      let comp0 : List (String × Value) :=
        [("instance_details", .dict [(file_name, .dict [("available", .bool true), ("index", .int entry_idx), ("timestamp", ts)])])]
      let comp1 := if isNoneV status then comp0 else dictSet comp0 "status_difference" (.dict [(file_name, status)])
      let comp2 ← compare_request_response requestV responseV file_name comp1
      pairwiseFold rest file_name entry_idx ts status requestV responseV (dictSet diffs ck (.dict comp2))
    else
      pairwiseFold rest file_name entry_idx ts status requestV responseV diffs

/-- Endpoint identity resolution for one entry (lines 1389-1403): method
and full path, with the eagerly-evaluated nested `.get` defaults computed
first, exactly as Python evaluates call arguments. -/
def resolve_endpoint_key (entry : Value) : Except String (Value × Value) := do
  let req0 ← pyDotGet entry "request" (.dict [])
  let methodDefault ← pyDotGet req0 "method" (.str "UNKNOWN")
  let method ← pyDotGet entry "method" methodDefault
  let fp0 ← pyDotGet entry ":path" .none
  let full_path ←
    (if pyTruthy fp0 then pure fp0 else do
      let path ← pyDotGet entry "path" (.str "UNKNOWN")
      let hasReq ← pyInKey "request" entry
      let query ←
        (if hasReq then do
          let request ← pySubscript entry "request"
          let hasQ ← pyInKey "query" request
          (if hasQ then do
            let qv ← pySubscript request "query"
            (if pyTruthy qv then
              match qv with
              | .str qs => pure ("?" ++ qs)
              | _ => Except.error "TypeError"
             else pure "")
           else do
            let hasQS ← pyInKey "queryString" request
            (if hasQS then do
              let qv ← pySubscript request "queryString"
              (if pyTruthy qv then
                match qv with
                | .str qs => pure ("?" ++ qs)
                | _ => Except.error "TypeError"
               else pure "")
             else pure ""))
         else pure "")
      match path with
      | .str p => pure (Value.str (p ++ query))
      | _ => Except.error "TypeError")
  pure (method, full_path)

/-- Instance snapshot extraction for one entry (lines 1436-1451): status,
timestamp, request and response sub-objects, tolerating both flattened and
nested layouts with the flattened `entry.request_headers`-style fields
preferred. -/
def extract_instance_data (entry : Value) : Except String (Value × Value × Value × Value) := do
  let resp0 ← pyDotGet entry "response" (.dict [])
  let statusInner ← pyDotGet resp0 "status" .none
  let status ← pyDotGet entry "status" statusInner
  let ts ← pyDotGet entry "timestamp" .none
  let req0 ← pyDotGet entry "request" (.dict [])
  let rhInner ← pyDotGet req0 "headers" (.dict [])
  let rHeaders ← pyDotGet entry "request_headers" rhInner
  let rbInner ← pyDotGet req0 "body" .none
  let rBody ← pyDotGet entry "request_body" rbInner
  let rcInner ← pyDotGet req0 "cookies" (.list [])
  let rCookies ← pyDotGet entry "request_cookies" rcInner
  let rqInner ← pyDotGet req0 "query_params" (.list [])
  let rQuery ← pyDotGet entry "request_query_params" rqInner
  let shInner ← pyDotGet resp0 "headers" (.dict [])
  let sHeaders ← pyDotGet entry "response_headers" shInner
  let sbInner ← pyDotGet resp0 "body" .none
  let sBody ← pyDotGet entry "response_body" sbInner
  let scInner ← pyDotGet resp0 "cookies" (.list [])
  let sCookies ← pyDotGet entry "response_cookies" scInner
  let requestV := Value.dict [("headers", rHeaders), ("body", rBody), ("cookies", rCookies), ("query_params", rQuery)]
  let responseV := Value.dict [("headers", sHeaders), ("body", sBody), ("cookies", sCookies)]
  pure (status, ts, requestV, responseV)

/-- Processing of one traffic entry (lines 1387-1483): key resolution,
record creation, presence/count updates, instance extraction, pairwise
containers. -/
def processEntry (m : List (String × EndpointData)) (file_name : String) (entry_idx : Nat) (entry : Value) : Except String (List (String × EndpointData)) := do
  let mp ← resolve_endpoint_key entry
  let endpoint_key := pyStr mp.1 ++ ":" ++ pyStr mp.2
  let m := if (alookup endpoint_key m).isSome then m else m ++ [(endpoint_key, initEndpointData mp.1 mp.2)]
  let m := modifyAt m endpoint_key (fun d =>
    if file_name ∈ d.present_in then d else { d with present_in := d.present_in ++ [file_name] })
  let m := modifyAt m endpoint_key (fun d => { d with instance_counts := bumpCount d.instance_counts file_name })
  let inst ← extract_instance_data entry
  match alookup endpoint_key m with
  | some d => do
    let diffs2 ← pairwiseFold d.present_in file_name entry_idx inst.2.1 inst.1 inst.2.2.1 inst.2.2.2 d.differences
    pure (modifyAt m endpoint_key (fun d2 => { d2 with differences := diffs2 }))
  | Option.none => pure m

def processEntries (m : List (String × EndpointData)) (file_name : String) : Nat → List Value → Except String (List (String × EndpointData))
  | _, [] => .ok m
  | idx, entry :: rest => do
    let m2 ← processEntry m file_name idx entry
    processEntries m2 file_name (idx + 1) rest

/-- `for` iteration over an arbitrary value: lists yield elements, strings
yield one-character strings, dicts yield their keys, anything else raises. -/
def pyIter : Value → Except String (List Value)
  | .list l => .ok l
  | .str s => .ok (s.data.map (fun c => Value.str (String.mk [c])))
  | .dict l => .ok (l.map (fun p => Value.str p.1))
  | _ => .error "TypeError"

def mapFilesAux : List Value → List String → List (String × EndpointData) → Except String (List (String × EndpointData))
  | [], _, m => .ok m
  | _ :: _, [], _ => .error "IndexError"
  | data :: ds, name :: rest, m => do
    let entriesInner ← pyDotGet data "entries" (.list [])
    let entriesV ← pyDotGet data "data" entriesInner
    if pyTruthy entriesV then do
      let entries ← pyIter entriesV
      let m2 ← processEntries m name 0 entries
      mapFilesAux ds rest m2
    else mapFilesAux ds rest m

/-- `_map_endpoints_across_files(files_data, file_names)`. -/
def map_endpoints_across_files (files_data : List Value) (file_names : List String) : Except String (List (String × EndpointData)) :=
  mapFilesAux files_data file_names []

/-! ## `_analyze_api_differences` (src/server.py lines 1641-1723) -/

structure AnalyzeResult where
  method : Value
  path : Value
  has_changes : Bool
  present_in : List String
  missing_in : List Value
  instance_counts : List (String × Nat)
  differences : List (String × Value)
  response_status_summary : List (String × Value)
  response_body_differences : List (String × Value)

/-- The `for other_file in file_names` loop (lines 1698-1710) inside the
per-response `try` block.  A `TypeError` on the nested assignment would be
absorbed by `except: pass`, aborting the rest of this body's processing
with the mutations made so far kept. -/
def otherFilesLoop (r : AnalyzeResult) (files : List String) (file_name : String) (parsed : Value) : AnalyzeResult :=
  match files with
  | [] => r
  | other :: rest =>
    if other = file_name then otherFilesLoop r rest file_name parsed
    else
      let ck := file_name ++ "_vs_" ++ other
      let rbd0 := r.response_body_differences
      let rbd := if (alookup ck rbd0).isSome then rbd0 else rbd0 ++ [(ck, .dict [])]
      let r1 := { r with response_body_differences := rbd }
      match alookup other rbd with
      | some other_body =>
        let diffs := deep_compare_structures parsed other_body [] true
        if diffs.isEmpty then otherFilesLoop r1 rest file_name parsed
        else
          (match alookup ck rbd with
           | some (.dict ckl) =>
             otherFilesLoop
               { r1 with response_body_differences := dictSet rbd ck (.dict (dictSet ckl "differences" (.list diffs))),
                         has_changes := true }
               rest file_name parsed
           | _ => r1)
      | Option.none => otherFilesLoop r1 rest file_name parsed

/-- The per-response `try` block (lines 1680-1712): parse `body["text"]`,
record the status summary and parsed body, diff against previously parsed
bodies.  Any failure (non-str text, `JSONDecodeError`) is absorbed. -/
def tryExtractBody (r : AnalyzeResult) (file_names : List String) (file_name : String) (body : Value) : AnalyzeResult :=
  match body with
  | .dict bl =>
    (match alookup "text" bl with
     | some tv =>
       if pyTruthy tv then
         match tv with
         | .str t =>
           (match jsonLoads t with
            | some (.dict pl) =>
              let status_code := pyOr ((alookup "statusCode" pl).getD .none) ((alookup "code" pl).getD .none)
              let status_message := pyOr ((alookup "statusMessage" pl).getD .none) ((alookup "message" pl).getD .none)
              let summaryEntry : Value := .dict [("code", status_code), ("message", status_message)]
              let r1 := if pyTruthy status_code || pyTruthy status_message then
                  { r with response_status_summary := dictSet r.response_status_summary file_name summaryEntry }
                else r
              let r2 := { r1 with response_body_differences := dictSet r1.response_body_differences file_name (.dict pl) }
              otherFilesLoop r2 file_names file_name (.dict pl)
            | some _ => r
            | Option.none => r)
         | _ => r
       else r
     | Option.none => r)
  | _ => r

def responseItemsLoop (r : AnalyzeResult) (file_names : List String) : List (String × Value) → Except String AnalyzeResult
  | [] => .ok r
  | (file_name, response_data) :: rest => do
    let body ← pyDotGet response_data "body" (.dict [])
    responseItemsLoop (tryExtractBody r file_names file_name body) file_names rest

/-- The outer `for comparison_key, comparison_data in differences` loop of
the response-extraction phase (lines 1675-1712). -/
def analyzeDiffLoop (r : AnalyzeResult) (file_names : List String) : List (String × Value) → Except String AnalyzeResult
  | [] => .ok r
  | (_, cd) :: rest => do
    let hasRD ← pyInKey "response_differences" cd
    if hasRD then do
      let rdv ← pySubscript cd "response_differences"
      let items ← pyItems rdv
      let r2 ← responseItemsLoop r file_names items
      analyzeDiffLoop r2 file_names rest
    else analyzeDiffLoop r file_names rest

def processEndpoint (d : EndpointData) : Except String AnalyzeResult := do
  let r0 : AnalyzeResult :=
    { method := d.method, path := d.path, has_changes := false,
      present_in := d.present_in, missing_in := d.missing_in, instance_counts := d.instance_counts,
      differences := d.differences, response_status_summary := [], response_body_differences := [] }
  let r1 ← analyzeDiffLoop r0 d.present_in d.differences
  pure { r1 with has_changes := r1.has_changes || d.differences.any (fun p => pyTruthy p.2) }

/-- `_analyze_api_differences(endpoint_mapping, comparison_level)`.  The
`comparison_level` argument is accepted and ignored, as in the source. -/
def analyze_api_differences : List (String × EndpointData) → String → Except String (List (String × AnalyzeResult))
  | [], _ => .ok []
  | (k, d) :: rest, lvl =>
    if d.present_in.length < 2 then analyze_api_differences rest lvl
    else do
      let r ← processEndpoint d
      let rs ← analyze_api_differences rest lvl
      pure ((k, r) :: rs)

/-! ## `compare_api_structures` (src/server.py lines 1279-1363)

The filesystem and clock are abstracted: `FS` records which paths exist
and what `json.load` yields for each readable file (`Option.none`
modelling a read/decode exception), `now_iso`/`now_stamp` stand for the
two `datetime.now()` renderings.  `makedirs` is modelled as always
succeeding, and filesystem mutations are reported as a list of effects. -/

structure FS where
  exists_paths : List String
  contents : List (String × Option Value)

def fsExists (fs : FS) (p : String) : Bool := p ∈ fs.exists_paths

def fsLoad (fs : FS) (p : String) : Option Value := (alookup p fs.contents).getD Option.none

structure SummaryReport where
  comparison_time : String
  files_compared : List String
  total_endpoints_analyzed : Nat
  endpoints_with_changes : Nat
  comparison_level : String
  detailed_results : List (String × AnalyzeResult)

inductive FsEffect where
  | mkdir (dir : String)
  | write (path : String) (report : SummaryReport)

structure CompareSuccess where
  message : String
  output_file : String
  total_endpoints : Nat
  endpoints_with_changes : Nat
  files_compared : List String
  detailed_results : List (String × AnalyzeResult)

inductive CompareResult where
  | error (msg : String)
  | success (s : CompareSuccess)

def basenameChars : List Char → List Char → List Char
  | [], acc => acc.reverse
  | c :: cs, acc => if c = '/' then basenameChars cs [] else basenameChars cs (c :: acc)

/-- `os.path.basename(p)`: the component after the last slash. -/
def basename (p : String) : String := String.mk (basenameChars p.data [])

def validateFiles (fs : FS) : List String → Option String
  | [] => Option.none
  | p :: rest =>
    if ¬ fsExists fs p then some ("File not found: " ++ p)
    else if ¬ strEndsWith p ".json" then some ("File must be a JSON file: " ++ p)
    else validateFiles fs rest

def loadAll (fs : FS) : List String → Option (List Value)
  | [] => some []
  | p :: rest => (fsLoad fs p).bind (fun v => (loadAll fs rest).map (fun vs => v :: vs))

/-- `os.makedirs(output_dir)` when the directory does not exist. -/
def mkdirEffects (fs : FS) (dir : String) : List FsEffect :=
  if fsExists fs dir then [] else [.mkdir dir]

/-- The timestamped output path `os.path.join(output_dir, f"api_comparison_{timestamp}.json")`. -/
def outputFileName (dir stamp : String) : String := dir ++ "/api_comparison_" ++ stamp ++ ".json"

/-- `sum(1 for endpoint in comparison_results.values() if endpoint["has_changes"])`. -/
def countChanged (rs : List (String × AnalyzeResult)) : Nat :=
  (rs.filter (fun p => p.2.has_changes)).length

/-- `compare_api_structures(file_paths, output_dir, comparison_level)`; the
second component collects filesystem effects (directory creation, report
write).  The clock is abstracted by `now_iso`/`now_stamp`, local variables
of the source are inlined, and exception text raised inside the outer
`try` is abstracted to the carried error string. -/
def compare_api_structures (fs : FS) (now_iso now_stamp : String) (file_paths : List String) (output_dir : String) (comparison_level : String) : CompareResult × List FsEffect :=
  if file_paths.length < 2 then (.error "At least two files are required for comparison", [])
  else if file_paths.length > 3 then (.error "Maximum of three files can be compared at once", [])
  else match validateFiles fs file_paths with
  | some msg => (.error msg, [])
  | Option.none =>
    match loadAll fs file_paths with
    | Option.none => (.error "Error comparing API structures: load failure", mkdirEffects fs output_dir)
    | some files_data =>
      match map_endpoints_across_files files_data (file_paths.map basename) with
      | .error e => (.error ("Error comparing API structures: " ++ e), mkdirEffects fs output_dir)
      | .ok endpoint_mapping =>
        match analyze_api_differences endpoint_mapping comparison_level with
        | .error e => (.error ("Error comparing API structures: " ++ e), mkdirEffects fs output_dir)
        | .ok comparison_results =>
          (.success { message := "Successfully compared " ++ toString file_paths.length ++
                        " files and saved results to " ++ outputFileName output_dir now_stamp,
                      output_file := outputFileName output_dir now_stamp,
                      total_endpoints := endpoint_mapping.length,
                      endpoints_with_changes := countChanged comparison_results,
                      files_compared := file_paths.map basename,
                      detailed_results := comparison_results },
           mkdirEffects fs output_dir ++
             [.write (outputFileName output_dir now_stamp)
                { comparison_time := now_iso, files_compared := file_paths.map basename,
                  total_endpoints_analyzed := endpoint_mapping.length,
                  endpoints_with_changes := countChanged comparison_results,
                  comparison_level := comparison_level,
                  detailed_results := comparison_results }])

/-! ## Concrete scenario data and projection helpers -/

/-- The `difference` tag carried by a diff entry. -/
def diffKind (e : Value) : String :=
  match e with
  | .dict l =>
    (match alookup "difference" l with
     | some (.str d) => d
     | _ => "")
  | _ => ""

/-- The `path` carried by a diff entry. -/
def diffPathStr (e : Value) : String :=
  match e with
  | .dict l =>
    (match alookup "path" l with
     | some (.str p) => p
     | _ => "")
  | _ => ""

def sample_entry_a : Value := .dict [("method", .str "GET"), ("path", .str "/a")]

def sample_entry_b : Value := .dict [("method", .str "GET"), ("path", .str "/b")]

def sample_file_a : Value := .dict [("data", .list [sample_entry_a])]

def c1_results : Except String (List (String × AnalyzeResult)) :=
  (map_endpoints_across_files [sample_file_a, sample_file_a, sample_file_a]
      ["f1.json", "f2.json", "f3.json"]).bind
    (fun m => analyze_api_differences m "detailed")

/-- C1: the spec says `has_changes` is true iff some pairwise diff entry or
response-status mismatch was recorded, and that three identical sources
yield `endpoints_with_changes = 0` with three empty pairwise diff lists.
Evaluating the code on three identical single-entry sources instead marks
the single endpoint as changed: each pairwise container always holds
`instance_details` (plus the raw request/response snapshots), so the final
truthiness check `if comparison_data:` fires although no diff-entry list
and no status mismatch was recorded (`response_status_summary` and
`response_body_differences` both stay empty). -/
theorem c1_three_identical_sources :
    c1_results.map (fun rs => rs.map Prod.fst) = .ok ["GET:/a"] ∧
    c1_results.map (fun rs => rs.map (fun p => p.2.has_changes)) = .ok [true] ∧
    c1_results.map (fun rs => (rs.filter (fun p => p.2.has_changes)).length) = .ok 1 ∧
    c1_results.map (fun rs => rs.map (fun p => p.2.differences.map Prod.fst)) =
      .ok [["request", "response", "headers", "status_codes", "parameters",
            "f2.json_vs_f1.json", "f3.json_vs_f1.json", "f3.json_vs_f2.json"]] ∧
    c1_results.map (fun rs => rs.map (fun p => p.2.response_status_summary)) = .ok [[]] ∧
    c1_results.map (fun rs => rs.map (fun p => p.2.response_body_differences)) = .ok [[]] :=
  ⟨rfl, rfl, rfl, rfl, rfl, rfl⟩

def c2_fs : FS :=
  { exists_paths := ["f1.json", "f2.json", "./output"],
    contents := [("f1.json", some (.dict [("data", .list [sample_entry_a, sample_entry_b])])),
                 ("f2.json", some (.dict [("data", .list [sample_entry_a])]))] }

/-- C2 counterexample: with an endpoint (`GET:/b`) present in only one of
two sources, the report's `total_endpoints` is the size of the aggregation
mapping (2), not the size of the pairwise comparison-results mapping (1),
so the claim `total_endpoints = count(results)` fails on this input. -/
theorem c2_counterexample :
    (match (compare_api_structures c2_fs "T" "S" ["f1.json", "f2.json"] "./output" "detailed").1 with
     | .success s => (s.total_endpoints, s.detailed_results.length, s.endpoints_with_changes)
     | .error _ => (0, 0, 0)) = (2, 1, 1) := rfl

def c6_list1 : Value := .list [.int 1, .int 2, .int 3]

def c6_list2 : Value := .list [.int 1, .int 2]

/-- C6 counterexample: comparing `[1,2,3]` with `[1,2]` emits an
`extra_item_in_first` entry (for index 2) in addition to the
`array_length_changed` entry, contradicting the claim that the length
change is not also reported as an extra-item diff. -/
theorem c6_counterexample :
    (deep_compare_structures c6_list1 c6_list2 [] true).any
      (fun e => diffKind e = "extra_item_in_first") = true := rfl

/-- C6 amended: `[1,2,3]` vs `[1,2]` yields exactly one
`array_length_changed` entry carrying lengths 3 and 2 and no item-level
diffs for indices 0-1, but additionally one `extra_item_in_first` entry
for index 2. -/
theorem c6_amended_exact_output :
    deep_compare_structures c6_list1 c6_list2 [] true =
      [Value.dict [("path", .str "root"), ("difference", .str "array_length_changed"),
                   ("length1", .int 3), ("length2", .int 2)],
       Value.dict [("path", .str "[2]"), ("difference", .str "extra_item_in_first"),
                   ("value", .str "3")]] := rfl

def c4_left : Value := .dict [("b", .int 1), ("a", .int 2)]

/-- C4 counterexample: for mappings `{"b": 1, "a": 2}` vs `{}`, diff
entries come out in the insertion order `b, a`, not in the sorted order
`a, b` of `keys(a) βˆͺ keys(b)` the claim requires. -/
theorem c4_counterexample :
    (deep_compare_structures c4_left (.dict []) [] true).map diffPathStr = ["b", "a"] ∧
    ["b", "a"] ≠ ["a", "b"] := ⟨rfl, by decide⟩

/-- C5 counterexample: `True == 1` holds in Python, yet
`_deep_compare_structures(True, 1, [])` is not empty — the top-level type
check compares `type(obj1)` with `type(obj2)` and emits `type_changed`
for a deep-equal pair. -/
theorem c5_counterexample :
    pyEq (.bool true) (.int 1) = true ∧
    deep_compare_structures (.bool true) (.int 1) [] true =
      [Value.dict [("path", .str "root"), ("difference", .str "type_changed"),
                   ("type1", .str "bool"), ("type2", .str "int"),
                   ("value1", .str "True"), ("value2", .str "1")]] := ⟨rfl, rfl⟩

/-- C7 counterexample: comparing the string-encoded body
`"{\"status\":\"OK\"}"` against the native mapping `{"status":"FAIL"}`,
`_compare_parameters` substitutes the parsed value but does not
re-dispatch: it emits a single `value_mismatch` keyed by the current path
`root` — no entry at path `status` and no type mismatch. -/
theorem c7_counterexample :
    compare_parameters (.str "\x7b\"status\":\"OK\"\x7d") (.dict [("status", .str "FAIL")]) "f1" "f2" [] =
      [("root", Value.dict [("type", .str "value_mismatch"),
                            ("f1_value", .str "\x7b\x27status\x27: \x27OK\x27\x7d"),
                            ("f2_value", .str "\x7b\x27status\x27: \x27FAIL\x27\x7d")])] := rfl

/-- C9 counterexample: a traffic entry that is not a mapping (here the
integer 5) makes `_map_endpoints_across_files` raise `AttributeError`
(`entry.get` on a non-dict), rather than being folded in under
`"UNKNOWN:UNKNOWN"`; nothing inside the aggregator catches it. -/
theorem c9_counterexample :
    map_endpoints_across_files [.dict [("data", .list [.int 5])]] ["f1.json"] =
      .error "AttributeError" := rfl

/-- C8: with fewer than 2 or more than 3 source files,
`compare_api_structures` returns a structured `{error: string}` result
before touching the filesystem: no directory is created and no output
file is written. -/
theorem c8_arity_guard (fs : FS) (ni ns : String) (paths : List String) (dir lvl : String)
    (h : paths.length < 2 ∨ paths.length > 3) :
    compare_api_structures fs ni ns paths dir lvl =
      (.error (if paths.length < 2 then "At least two files are required for comparison"
               else "Maximum of three files can be compared at once"), []) := by
  rcases h with h | h
  · simp [compare_api_structures, h]
  · have h2 : ¬ paths.length < 2 := by omega
    simp [compare_api_structures, h, h2]

theorem c8_arity_guard_witness :
    compare_api_structures ⟨[], []⟩ "t" "s" [] "o" "detailed" =
      (.error (if ([] : List String).length < 2 then "At least two files are required for comparison"
               else "Maximum of three files can be compared at once"), []) :=
  c8_arity_guard ⟨[], []⟩ "t" "s" [] "o" "detailed" (Or.inl (by decide))

theorem c3_excluded_mem (m : List (String × EndpointData)) (lvl : String)
    (rs : List (String × AnalyzeResult)) (h : analyze_api_differences m lvl = .ok rs)
    (k : String) (hk : ∀ d, (k, d) ∈ m → d.present_in.length < 2) :
    ∀ r, (k, r) ∈ rs → False := by
  induction m generalizing rs with
  | nil =>
    simp only [analyze_api_differences] at h
    cases h
    simp
  | cons p rest ih =>
    obtain ⟨k2, d⟩ := p
    simp only [analyze_api_differences] at h
    split at h
    · exact ih rs h (fun d2 hd2 => hk d2 (List.mem_cons_of_mem _ hd2))
    · rename_i hge
      cases hpe : processEndpoint d with
      | error e =>
        rw [hpe] at h
        have h2 : (Except.error e : Except String (List (String × AnalyzeResult))) = .ok rs := h
        cases h2
      | ok r2 =>
        rw [hpe] at h
        cases har : analyze_api_differences rest lvl with
        | error e =>
          rw [har] at h
          have h2 : (Except.error e : Except String (List (String × AnalyzeResult))) = .ok rs := h
          cases h2
        | ok rs2 =>
          rw [har] at h
          have h2 : Except.ok ((k2, r2) :: rs2) = Except.ok rs := h
          cases h2
          intro r hr
          rcases List.mem_cons.mp hr with hhead | htail
          · have hkk : k = k2 := congrArg Prod.fst hhead
            subst hkk
            exact hge (hk d (List.mem_cons_self _ _))
          · exact ih rs2 har (fun d2 hd2 => hk d2 (List.mem_cons_of_mem _ hd2)) r htail

/-- C3: an aggregated endpoint whose `present_in` has fewer than 2 source
identifiers never contributes a key to the output of
`_analyze_api_differences`: the guard at lines 1655-1657 skips it, so every
key of the result mapping differs from such an endpoint's key. -/
theorem c3_single_source_excluded (m : List (String × EndpointData)) (lvl : String)
    (rs : List (String × AnalyzeResult)) (h : analyze_api_differences m lvl = .ok rs)
    (k : String) (hk : ∀ d, (k, d) ∈ m → d.present_in.length < 2) :
    rs.all (fun p => !(p.1 == k)) = true := by
  rw [List.all_eq_true]
  intro p hp
  by_cases hpk : p.1 = k
  · have hmem : (k, p.2) ∈ rs := by
      rw [← hpk]
      exact hp
    exact (c3_excluded_mem m lvl rs h k hk p.2 hmem).elim
  · simp [hpk]

theorem c3_single_source_excluded_witness :
    ([] : List (String × AnalyzeResult)).all (fun p => !(p.1 == "x")) = true :=
  c3_single_source_excluded [("x", initEndpointData .none .none)] "detailed" [] rfl "x"
    (fun d hd => by
      have h := List.mem_singleton.mp hd
      have hd2 : d = initEndpointData .none .none := congrArg Prod.snd h
      rw [hd2]
      decide)

/-- The per-key contribution of the first dict pass of
`_deep_compare_structures`, used to state the insertion-order
characterization of C4. -/
def dcs_key_entries (b : List (String × Value)) (path : List String) (iv : Bool) (k : String) (v : Value) : List Value :=
  match alookup k b with
  | Option.none =>
    [Value.dict [("path", .str (joinPath (path ++ [k]))),
                 ("difference", .str "field_missing_in_second"),
                 ("value", if iv then strTrunc v else .none)]]
  | some v2 =>
    if isComposite v then deep_compare_structures v v2 (path ++ [k]) iv
    else if pyEq v v2 then []
    else [Value.dict [("path", .str (joinPath (path ++ [k]))),
                      ("difference", .str "value_changed"),
                      ("value1", strTrunc v), ("value2", strTrunc v2)]]

theorem dcs_dict_pass1_eq_flatten (a b : List (String × Value)) (path : List String) (iv : Bool) :
    dcs_dict_pass1 a b path iv = (a.map (fun p => dcs_key_entries b path iv p.1 p.2)).flatten := by
  induction a with
  | nil => simp [dcs_dict_pass1]
  | cons p rest ih =>
    obtain ⟨k, v⟩ := p
    cases halk : alookup k b <;>
      simp [dcs_dict_pass1, dcs_key_entries, halk, ih]

/-- C4 amended: the comparator emits mapping-key diff entries in insertion
order — the per-key blocks for keys of the first mapping, in the first
mapping's order, followed by `field_missing_in_first` entries for keys only
in the second mapping, in the second mapping's order — not in sorted key
order; and the aggregation-plus-comparison pipeline is a pure function, so
repeated runs on the same input coincide. -/
theorem c4_amended_insertion_order (a b : List (String × Value)) (path : List String) (iv : Bool)
    (files : List Value) (names : List String) (lvl : String) :
    deep_compare_structures (.dict a) (.dict b) path iv =
      (a.map (fun p => dcs_key_entries b path iv p.1 p.2)).flatten ++
      (b.filter (fun p => (alookup p.1 a).isNone)).map (fun p =>
        Value.dict [("path", .str (joinPath (path ++ [p.1]))),
                    ("difference", .str "field_missing_in_first"),
                    ("value", if iv then strTrunc p.2 else .none)]) ∧
    (map_endpoints_across_files files names).bind (fun m => analyze_api_differences m lvl) =
      (map_endpoints_across_files files names).bind (fun m => analyze_api_differences m lvl) :=
  ⟨by simp [deep_compare_structures, dcs_dict_pass1_eq_flatten, dcs_dict_pass2], rfl⟩

/-! ## Strict deep equality (deep equality with type-identical scalars)

Python `==` identifies `True` with `1`; `strictEq` is the restriction of
deep equality to pairs whose equal scalars also share their runtime type
(dicts still compare order-insensitively).  This is the hypothesis under
which the comparator is proved to return no diffs (claim C5). -/

mutual

def strictEq : Value → Value → Bool
  | .none, .none => true
  | .bool a, .bool b => a = b
  | .int a, .int b => a = b
  | .str a, .str b => a = b
  | .list a, .list b => a.length = b.length && strictEqList a b
  | .dict a, .dict b => (a.length = b.length && strictEqDict a b) && b.all (fun p => (alookup p.1 a).isSome)
  | _, _ => false

def strictEqList : List Value → List Value → Bool
  | [], [] => true
  | x :: xs, y :: ys => strictEq x y && strictEqList xs ys
  | _, _ => false

def strictEqDict : List (String × Value) → List (String × Value) → Bool
  | [], _ => true
  | (k, v) :: rest, b =>
    (match alookup k b with
     | some w => strictEq v w
     | Option.none => false) && strictEqDict rest b

end

theorem strictEq_imp_pyType {a b : Value} (h : strictEq a b = true) : pyType a = pyType b := by
  cases a <;> cases b <;> first | rfl | exact nomatch h

theorem strictEq_imp_pyEq : ∀ a b, strictEq a b = true → pyEq a b = true := by
  refine strictEq.induct (fun a b => strictEq a b = true → pyEq a b = true)
    (fun da db => strictEqDict da db = true → pyEqDict da db = true)
    (fun xs ys => strictEqList xs ys = true → pyEqList xs ys = true)
    ?_ ?_ ?_ ?_ ?_ ?_ ?_ ?_ ?_ ?_ ?_ ?_
  · intro h; rfl
  · intro a b h; simpa [strictEq, pyEq] using h
  · intro a b h; simpa [strictEq, pyEq] using h
  · intro a b h; simpa [strictEq, pyEq] using h
  · intro a b hm h
    simp only [strictEq, Bool.and_eq_true] at h
    simpa [pyEq] using hm h.2
  · intro a b hm h
    simp only [strictEq, Bool.and_eq_true] at h
    simp only [pyEq, Bool.and_eq_true]
    exact ⟨h.1.1, hm h.1.2⟩
  · intro t x hc1 hc2 hc3 hc4 hc5 hc6
    cases t <;> cases x <;>
      first
        | exact (hc1 rfl rfl).elim
        | exact (hc2 _ _ rfl rfl).elim
        | exact (hc3 _ _ rfl rfl).elim
        | exact (hc4 _ _ rfl rfl).elim
        | exact (hc5 _ _ rfl rfl).elim
        | exact (hc6 _ _ rfl rfl).elim
        | exact fun h => nomatch h
  · intro h; rfl
  · intro x xs y ys ih1 ih2 h
    simp only [strictEqList, Bool.and_eq_true] at h
    simp only [pyEqList, Bool.and_eq_true]
    exact ⟨ih1 h.1, ih2 h.2⟩
  · intro t x hc1 hc2
    cases t <;> cases x <;>
      first
        | exact (hc1 rfl rfl).elim
        | exact (hc2 _ _ _ _ rfl rfl).elim
        | exact fun h => nomatch h
  · intro x h; rfl
  · intro k v rest b ih1 ih2 h
    simp only [strictEqDict, Bool.and_eq_true] at h
    simp only [pyEqDict, Bool.and_eq_true]
    cases halk : alookup k b with
    | none => rw [halk] at h; exact nomatch h.1
    | some w =>
      rw [halk] at h
      exact ⟨ih1 w h.1, ih2 h.2⟩

/-- C5 amended: under strict deep equality (deep equality whose equal
scalars also agree on runtime type; dict key order is still irrelevant),
the comparator returns an empty diff list. -/
theorem c5_amended_strict_equal_empty : ∀ (a b : Value) (path : List String) (iv : Bool),
    strictEq a b = true → deep_compare_structures a b path iv = [] := by
  refine deep_compare_structures.induct
    (fun a b path iv => strictEq a b = true → deep_compare_structures a b path iv = [])
    (fun xs ys i path iv => strictEqList xs ys = true → dcs_list_items xs ys i path iv = [])
    (fun da db path iv => strictEqDict da db = true → dcs_dict_pass1 da db path iv = [])
    ?_ ?_ ?_ ?_ ?_ ?_ ?_ ?_ ?_
  · intro a b path iv hm h
    simp only [strictEq, Bool.and_eq_true] at h
    obtain ⟨⟨_, hsd⟩, hall⟩ := h
    have hall2 := List.all_eq_true.mp hall
    simp only [deep_compare_structures, hm hsd, dcs_dict_pass2, List.nil_append]
    rw [List.filter_eq_nil_iff.mpr]
    · rfl
    · intro p hp
      have h3 := hall2 p hp
      cases halk2 : alookup p.1 a with
      | none => rw [halk2] at h3; exact nomatch h3
      | some w => simp
  · intro a b path iv hm h
    simp only [strictEq, Bool.and_eq_true] at h
    obtain ⟨hlen, hsl⟩ := h
    have hlen2 : a.length = b.length := by simpa using hlen
    simp [deep_compare_structures, hlen2, hm hsl, dcs_extras]
  · intro o1 o2 path x hcd hcl hty h
    exact absurd (strictEq_imp_pyType h) hty
  · intro o1 o2 path x hcd hcl hty hpe h
    rw [deep_compare_structures.eq_def]
    split
    · rename_i a1 b1
      exact (hcd a1 b1 rfl rfl).elim
    · rename_i a1 b1
      exact (hcl a1 b1 rfl rfl).elim
    · rw [if_neg hty, if_pos hpe]
  · intro o1 o2 path x hcd hcl hty hpe h
    exact absurd (strictEq_imp_pyEq o1 o2 h) hpe
  · intro x xs y ys i path iv ih1 ih2 h
    simp only [strictEqList, Bool.and_eq_true] at h
    cases hcx : isComposite x <;>
      simp [dcs_list_items, hcx, ih1 h.1, ih2 h.2, strictEq_imp_pyEq x y h.1]
  · intro t x i path iv hc h
    cases t <;> cases x <;>
      first
        | exact (hc _ _ _ _ rfl rfl).elim
        | simp [dcs_list_items]
  · intro x path iv h; rfl
  · intro k v rest b path iv ih1 ih2 h
    simp only [strictEqDict, Bool.and_eq_true] at h
    cases halk : alookup k b with
    | none => rw [halk] at h; exact absurd h.1 (by simp)
    | some w =>
      rw [halk] at h
      cases hcv : isComposite v <;>
        simp [dcs_dict_pass1, halk, hcv, ih1 w h.1, ih2 h.2, strictEq_imp_pyEq v w h.1]

theorem c5_amended_strict_equal_empty_witness :
    strictEq (.dict [("x", .int 1), ("y", .list [.str "u"])])
             (.dict [("y", .list [.str "u"]), ("x", .int 1)]) = true ∧
    deep_compare_structures (.dict [("x", .int 1), ("y", .list [.str "u"])])
      (.dict [("y", .list [.str "u"]), ("x", .int 1)]) [] true = [] :=
  ⟨rfl, c5_amended_strict_equal_empty _ _ [] true rfl⟩

/-- C7 amended: when the first compared scalar is a string that parses as a
JSON mapping and the second is a native mapping, `_compare_parameters`
substitutes the parsed value but does not re-dispatch: it emits at most one
`value_mismatch` entry keyed by the current path (empty path renders as
`root`), never an entry at an inner path such as `status` and never a type
mismatch. -/
theorem c7_amended_no_redispatch (s : String) (l1 d2 : List (String × Value)) (f1 f2 : String)
    (path : List String) (h : jsonLoads s = some (.dict l1)) :
    compare_parameters (.str s) (.dict d2) f1 f2 path =
      (if pyEq (.dict l1) (.dict d2) then []
       else [(if path.isEmpty then "root" else joinPath path,
              Value.dict [("type", .str "value_mismatch"),
                          (f1 ++ "_value", strTrunc (.dict l1)),
                          (f2 ++ "_value", strTrunc (.dict d2))])]) := by
  simp only [compare_parameters, nodes, compare_parameters_fuel, try_parse_json, h, Option.getD,
             pyType]
  split <;> simp_all

theorem c7_amended_no_redispatch_witness :
    compare_parameters (.str "\x7b\"status\":\"OK\"\x7d") (.dict [("status", .str "OK")]) "f1" "f2" [] =
      (if pyEq (.dict [("status", .str "OK")]) (.dict [("status", .str "OK")]) then []
       else [(if ([] : List String).isEmpty then "root" else joinPath [],
              Value.dict [("type", .str "value_mismatch"),
                          ("f1" ++ "_value", strTrunc (.dict [("status", .str "OK")])),
                          ("f2" ++ "_value", strTrunc (.dict [("status", .str "OK")]))])]) :=
  c7_amended_no_redispatch "\x7b\"status\":\"OK\"\x7d" [("status", .str "OK")]
    [("status", .str "OK")] "f1" "f2" [] rfl

theorem pairwiseFold_self (n : String) (i : Nat) (ts st rv wv : Value) (diffs : List (String × Value)) :
    pairwiseFold [n] n i ts st rv wv diffs = .ok diffs := by
  simp [pairwiseFold]

theorem resolve_endpoint_key_unknown (e : List (String × Value))
    (h1 : alookup "method" e = Option.none) (h2 : alookup ":path" e = Option.none)
    (h3 : alookup "path" e = Option.none) (h4 : alookup "request" e = Option.none) :
    resolve_endpoint_key (.dict e) = .ok (.str "UNKNOWN", .str "UNKNOWN") := by
  simp only [resolve_endpoint_key, pyDotGet, pyInKey, h1, h2, h3, h4, Option.getD,
             pyTruthy, bind, Except.bind, pure, Except.pure, Option.isSome]
  rfl

theorem extract_instance_data_ok (e : List (String × Value))
    (h4 : alookup "request" e = Option.none) (h5 : alookup "response" e = Option.none) :
    ∃ v, extract_instance_data (.dict e) = .ok v := by
  simp only [extract_instance_data, pyDotGet, h4, h5, Option.getD,
             bind, Except.bind, pure, Except.pure]
  exact ⟨_, rfl⟩

/-- C9 amended: a mapping entry with none of the identity fields (no
`method`, `:path` or `path` keys and no `request`/`response` sub-objects)
is folded in under the key `UNKNOWN:UNKNOWN` without raising. -/
theorem c9_amended_unknown_bucket (e : List (String × Value)) (name : String)
    (h1 : alookup "method" e = Option.none) (h2 : alookup ":path" e = Option.none)
    (h3 : alookup "path" e = Option.none) (h4 : alookup "request" e = Option.none)
    (h5 : alookup "response" e = Option.none) :
    (map_endpoints_across_files [.dict [("data", .list [.dict e])]] [name]).map
      (fun m => m.map Prod.fst) = .ok ["UNKNOWN:UNKNOWN"] := by
  have hre := resolve_endpoint_key_unknown e h1 h2 h3 h4
  obtain ⟨v, hex⟩ := extract_instance_data_ok e h4 h5
  obtain ⟨st, ts, rv, wv⟩ := v
  simp [map_endpoints_across_files, mapFilesAux, processEntries, processEntry, hre, hex,
        pairwiseFold_self, pyDotGet, pyTruthy, pyIter, alookup, modifyAt, bumpCount,
        initEndpointData, pyStr, pyRepr, bind, Except.bind, pure, Except.pure, Except.map]

theorem c9_amended_unknown_bucket_witness :
    (map_endpoints_across_files [.dict [("data", .list [.dict [("foo", .int 1)]])]] ["f1.json"]).map
      (fun m => m.map Prod.fst) = .ok ["UNKNOWN:UNKNOWN"] :=
  c9_amended_unknown_bucket [("foo", .int 1)] "f1.json" rfl rfl rfl rfl rfl

/-- C2 amended: every successfully assembled report carries
`total_endpoints` equal to the size of the aggregation mapping (including
endpoints present in fewer than 2 sources) and `endpoints_with_changes`
equal to the number of pairwise comparison results whose `has_changes` is
true. -/
theorem c2_amended_totals (fs : FS) (ni ns : String) (paths : List String) (dir lvl : String)
    (s : CompareSuccess) (eff : List FsEffect)
    (h : compare_api_structures fs ni ns paths dir lvl = (.success s, eff)) :
    ∃ fd m rs, loadAll fs paths = some fd ∧
      map_endpoints_across_files fd (paths.map basename) = .ok m ∧
      analyze_api_differences m lvl = .ok rs ∧
      s.total_endpoints = m.length ∧
      s.endpoints_with_changes = (rs.filter (fun p => p.2.has_changes)).length ∧
      s.detailed_results = rs := by
  unfold compare_api_structures at h
  repeat' (split at h)
  all_goals (rw [Prod.mk.injEq] at h)
  all_goals (obtain ⟨hs, heff⟩ := h)
  all_goals (cases hs)
  all_goals (exact ⟨_, _, _, by assumption, by assumption, by assumption, rfl, rfl, rfl⟩)

def c2_run : CompareResult × List FsEffect :=
  compare_api_structures c2_fs "T" "S" ["f1.json", "f2.json"] "./output" "detailed"

def c2_success : CompareSuccess :=
  match c2_run.1 with
  | .success s => s
  | .error _ => { message := "", output_file := "", total_endpoints := 0,
                  endpoints_with_changes := 0, files_compared := [], detailed_results := [] }

theorem c2_amended_totals_witness :
    ∃ fd m rs, loadAll c2_fs ["f1.json", "f2.json"] = some fd ∧
      map_endpoints_across_files fd (["f1.json", "f2.json"].map basename) = .ok m ∧
      analyze_api_differences m "detailed" = .ok rs ∧
      c2_success.total_endpoints = m.length ∧
      c2_success.endpoints_with_changes = (rs.filter (fun p => p.2.has_changes)).length ∧
      c2_success.detailed_results = rs :=
  c2_amended_totals c2_fs "T" "S" ["f1.json", "f2.json"] "./output" "detailed" c2_success c2_run.2 rfl

/-! ## C10: value-field truncation and the effect of `include_values` -/

/-- The exact effect of `include_values=False` on one diff entry: the
`value` field of `field_missing_*`/`extra_item_*` entries and the
`value1`/`value2` fields of `type_changed` entries become `None`; every
other entry (notably `value_changed` and `array_item_changed`) is kept
unchanged. -/
def nullify_entry (e : Value) : Value :=
  match e with
  | .dict l =>
    (match alookup "difference" l with
     | some (.str d) =>
       if d = "field_missing_in_first" ∨ d = "field_missing_in_second" ∨
          d = "extra_item_in_first" ∨ d = "extra_item_in_second" then
         .dict (dictSet l "value" .none)
       else if d = "type_changed" then .dict (dictSet (dictSet l "value1" .none) "value2" .none)
       else .dict l
     | _ => .dict l)
  | v => v

def isValueChangeKind (e : Value) : Bool :=
  diffKind e = "value_changed" || diffKind e = "array_item_changed"

def values_bounded (e : Value) : Bool :=
  match e with
  | .dict l =>
    (match alookup "value1" l, alookup "value2" l with
     | some (.str s1), some (.str s2) => decide (s1.length ≤ 100) && decide (s2.length ≤ 100)
     | _, _ => false)
  | _ => false

theorem truncate100_length_le (s : String) : (truncate100 s).length ≤ 100 := by
  show (s.data.take 100).length ≤ 100
  simp [List.length_take]

theorem nullify_missing1 (p : String) (w : Value) :
    nullify_entry (Value.dict [("path", .str p), ("difference", .str "field_missing_in_first"), ("value", w)]) =
      Value.dict [("path", .str p), ("difference", .str "field_missing_in_first"), ("value", .none)] := rfl

theorem nullify_missing2 (p : String) (w : Value) :
    nullify_entry (Value.dict [("path", .str p), ("difference", .str "field_missing_in_second"), ("value", w)]) =
      Value.dict [("path", .str p), ("difference", .str "field_missing_in_second"), ("value", .none)] := rfl

theorem nullify_extra1 (p : String) (w : Value) :
    nullify_entry (Value.dict [("path", .str p), ("difference", .str "extra_item_in_first"), ("value", w)]) =
      Value.dict [("path", .str p), ("difference", .str "extra_item_in_first"), ("value", .none)] := rfl

theorem nullify_extra2 (p : String) (w : Value) :
    nullify_entry (Value.dict [("path", .str p), ("difference", .str "extra_item_in_second"), ("value", w)]) =
      Value.dict [("path", .str p), ("difference", .str "extra_item_in_second"), ("value", .none)] := rfl

theorem nullify_type_entry (p t1 t2 : String) (w1 w2 : Value) :
    nullify_entry (Value.dict [("path", .str p), ("difference", .str "type_changed"),
                               ("type1", .str t1), ("type2", .str t2), ("value1", w1), ("value2", w2)]) =
      Value.dict [("path", .str p), ("difference", .str "type_changed"),
                  ("type1", .str t1), ("type2", .str t2), ("value1", .none), ("value2", .none)] := rfl

theorem nullify_value_entry (p : String) (w1 w2 : Value) :
    nullify_entry (Value.dict [("path", .str p), ("difference", .str "value_changed"), ("value1", w1), ("value2", w2)]) =
      Value.dict [("path", .str p), ("difference", .str "value_changed"), ("value1", w1), ("value2", w2)] := rfl

theorem nullify_item_entry (p : String) (w1 w2 : Value) :
    nullify_entry (Value.dict [("path", .str p), ("difference", .str "array_item_changed"), ("value1", w1), ("value2", w2)]) =
      Value.dict [("path", .str p), ("difference", .str "array_item_changed"), ("value1", w1), ("value2", w2)] := rfl

theorem nullify_length_entry (p : String) (w1 w2 : Value) :
    nullify_entry (Value.dict [("path", .str p), ("difference", .str "array_length_changed"), ("length1", w1), ("length2", w2)]) =
      Value.dict [("path", .str p), ("difference", .str "array_length_changed"), ("length1", w1), ("length2", w2)] := rfl

theorem values_bounded_trunc (p d : String) (v1 v2 : Value) :
    values_bounded (Value.dict [("path", .str p), ("difference", .str d),
                                ("value1", strTrunc v1), ("value2", strTrunc v2)]) = true := by
  simp [values_bounded, alookup, strTrunc, truncate100_length_le]

/-- The scalar (non-dict-pair, non-list-pair) branch of the comparator in
closed form. -/
theorem dcs_scalar_eq (o1 o2 : Value) (path : List String) (iv : Bool)
    (hcd : ∀ a b, o1 = Value.dict a → o2 = Value.dict b → False)
    (hcl : ∀ a b, o1 = Value.list a → o2 = Value.list b → False) :
    deep_compare_structures o1 o2 path iv =
      (if pyType o1 ≠ pyType o2 then
        [Value.dict [("path", .str (joinOrRoot path)), ("difference", .str "type_changed"),
                     ("type1", .str (pyType o1)), ("type2", .str (pyType o2)),
                     ("value1", if iv then strTrunc o1 else .none),
                     ("value2", if iv then strTrunc o2 else .none)]]
      else if pyEq o1 o2 then []
      else
        [Value.dict [("path", .str (joinOrRoot path)), ("difference", .str "value_changed"),
                     ("value1", strTrunc o1), ("value2", strTrunc o2)]]) := by
  rw [deep_compare_structures.eq_def]
  split
  · rename_i a1 b1
    exact (hcd a1 b1 rfl rfl).elim
  · rename_i a1 b1
    exact (hcl a1 b1 rfl rfl).elim
  · rfl

theorem dcs_dict_pass2_nullify (a b : List (String × Value)) (path : List String) :
    dcs_dict_pass2 a b path false = (dcs_dict_pass2 a b path true).map nullify_entry := by
  simp only [dcs_dict_pass2, List.map_map]
  exact List.map_congr_left (fun p _ => rfl)

theorem dcs_extras_nullify (a b : List Value) (path : List String) :
    dcs_extras a b path false = (dcs_extras a b path true).map nullify_entry := by
  by_cases h1 : a.length > b.length
  · simp only [dcs_extras, if_pos h1, List.map_map]
    exact List.map_congr_left (fun p _ => rfl)
  · by_cases h2 : b.length > a.length
    · simp only [dcs_extras, if_neg h1, if_pos h2, List.map_map]
      exact List.map_congr_left (fun p _ => rfl)
    · simp [dcs_extras, if_neg h1, if_neg h2]

theorem dcs_nullify : ∀ (a b : Value) (path : List String) (iv : Bool),
    deep_compare_structures a b path false = (deep_compare_structures a b path true).map nullify_entry := by
  refine deep_compare_structures.induct
    (fun a b path _ => deep_compare_structures a b path false = (deep_compare_structures a b path true).map nullify_entry)
    (fun xs ys i path _ => dcs_list_items xs ys i path false = (dcs_list_items xs ys i path true).map nullify_entry)
    (fun da db path _ => dcs_dict_pass1 da db path false = (dcs_dict_pass1 da db path true).map nullify_entry)
    ?_ ?_ ?_ ?_ ?_ ?_ ?_ ?_ ?_
  · intro a b path iv hm3
    simp only [deep_compare_structures, List.map_append, hm3, dcs_dict_pass2_nullify]
  · intro a b path iv hm2
    by_cases hlen : a.length = b.length <;>
      simp [deep_compare_structures, hlen, hm2, dcs_extras_nullify, List.map_append, nullify_length_entry]
  · intro o1 o2 path x hcd hcl hty
    rw [dcs_scalar_eq o1 o2 path false hcd hcl, dcs_scalar_eq o1 o2 path true hcd hcl,
        if_pos hty, if_pos hty]
    simp [nullify_type_entry]
  · intro o1 o2 path x hcd hcl hty hpe
    rw [dcs_scalar_eq o1 o2 path false hcd hcl, dcs_scalar_eq o1 o2 path true hcd hcl,
        if_neg hty, if_neg hty, if_pos hpe]
    rfl
  · intro o1 o2 path x hcd hcl hty hpe
    rw [dcs_scalar_eq o1 o2 path false hcd hcl, dcs_scalar_eq o1 o2 path true hcd hcl,
        if_neg hty, if_neg hty, if_neg hpe]
    simp [nullify_value_entry]
  · intro x xs y ys i path iv ih1 ih2
    by_cases hcx : isComposite x = true
    · simp [dcs_list_items, hcx, ih1, ih2, List.map_append]
    · by_cases hpe : pyEq x y = true
      · simp [dcs_list_items, hcx, hpe, ih2]
      · simp [dcs_list_items, hcx, hpe, ih2, nullify_item_entry, List.map_append]
  · intro t x i path iv hc
    cases t <;> cases x <;>
      first
        | exact (hc _ _ _ _ rfl rfl).elim
        | simp [dcs_list_items]
  · intro x path iv
    rfl
  · intro k v rest b path iv ih1 ih2
    cases halk : alookup k b with
    | none => simp [dcs_dict_pass1, halk, ih2, nullify_missing2, List.map_append]
    | some v2 =>
      by_cases hcv : isComposite v = true
      · simp [dcs_dict_pass1, halk, hcv, ih1 v2, ih2, List.map_append]
      · by_cases hpe : pyEq v v2 = true
        · simp [dcs_dict_pass1, halk, hcv, hpe, ih2]
        · simp [dcs_dict_pass1, halk, hcv, hpe, ih2, nullify_value_entry, List.map_append]

theorem dcs_bounded : ∀ (a b : Value) (path : List String) (iv : Bool),
    ∀ e ∈ deep_compare_structures a b path iv, isValueChangeKind e = true → values_bounded e = true := by
  refine deep_compare_structures.induct
    (fun a b path iv => ∀ e ∈ deep_compare_structures a b path iv, isValueChangeKind e = true → values_bounded e = true)
    (fun xs ys i path iv => ∀ e ∈ dcs_list_items xs ys i path iv, isValueChangeKind e = true → values_bounded e = true)
    (fun da db path iv => ∀ e ∈ dcs_dict_pass1 da db path iv, isValueChangeKind e = true → values_bounded e = true)
    ?_ ?_ ?_ ?_ ?_ ?_ ?_ ?_ ?_
  · intro a b path iv hm3 e he hk
    simp only [deep_compare_structures, List.mem_append] at he
    rcases he with he | he
    · exact hm3 e he hk
    · simp only [dcs_dict_pass2, List.mem_map] at he
      obtain ⟨p, _, rfl⟩ := he
      cases hiv : iv <;> rw [hiv] at hk <;> exact nomatch hk
  · intro a b path iv hm2 e he hk
    simp only [deep_compare_structures, List.mem_append] at he
    rcases he with (he | he) | he
    · by_cases hlen : a.length = b.length
      · rw [if_pos hlen] at he
        exact absurd he (List.not_mem_nil e)
      · rw [if_neg hlen] at he
        obtain rfl := List.mem_singleton.mp he
        exact nomatch hk
    · exact hm2 e he hk
    · by_cases h1 : a.length > b.length
      · simp only [dcs_extras, if_pos h1, List.mem_map] at he
        obtain ⟨p, _, rfl⟩ := he
        cases hiv : iv <;> rw [hiv] at hk <;> exact nomatch hk
      · by_cases h2 : b.length > a.length
        · simp only [dcs_extras, if_neg h1, if_pos h2, List.mem_map] at he
          obtain ⟨p, _, rfl⟩ := he
          cases hiv : iv <;> rw [hiv] at hk <;> exact nomatch hk
        · simp only [dcs_extras, if_neg h1, if_neg h2] at he
          exact absurd he (List.not_mem_nil e)
  · intro o1 o2 path x hcd hcl hty e he hk
    rw [dcs_scalar_eq o1 o2 path x hcd hcl, if_pos hty] at he
    obtain rfl := List.mem_singleton.mp he
    cases hiv : x <;> rw [hiv] at hk <;> exact nomatch hk
  · intro o1 o2 path x hcd hcl hty hpe e he hk
    rw [dcs_scalar_eq o1 o2 path x hcd hcl, if_neg hty, if_pos hpe] at he
    exact absurd he (List.not_mem_nil e)
  · intro o1 o2 path x hcd hcl hty hpe e he hk
    rw [dcs_scalar_eq o1 o2 path x hcd hcl, if_neg hty, if_neg hpe] at he
    obtain rfl := List.mem_singleton.mp he
    exact values_bounded_trunc _ _ o1 o2
  · intro x xs y ys i path iv ih1 ih2 e he hk
    simp only [dcs_list_items, List.mem_append] at he
    rcases he with he | he
    · by_cases hcx : isComposite x = true
      · rw [if_pos hcx] at he
        exact ih1 e he hk
      · rw [if_neg hcx] at he
        by_cases hpe : pyEq x y = true
        · rw [if_pos hpe] at he
          exact absurd he (List.not_mem_nil e)
        · rw [if_neg hpe] at he
          obtain rfl := List.mem_singleton.mp he
          exact values_bounded_trunc _ _ x y
    · exact ih2 e he hk
  · intro t x i path iv hc e he hk
    cases t <;> cases x <;>
      first
        | exact (hc _ _ _ _ rfl rfl).elim
        | exact absurd he (List.not_mem_nil e)
  · intro x path iv e he hk
    exact absurd he (List.not_mem_nil e)
  · intro k v rest b path iv ih1 ih2 e he hk
    simp only [dcs_dict_pass1, List.mem_append] at he
    rcases he with he | he
    · cases halk : alookup k b with
      | none =>
        rw [halk] at he
        obtain rfl := List.mem_singleton.mp he
        cases hiv : iv <;> rw [hiv] at hk <;> exact nomatch hk
      | some v2 =>
        simp only [halk] at he
        by_cases hcv : isComposite v = true
        · rw [if_pos hcv] at he
          exact ih1 v2 e he hk
        · by_cases hpe : pyEq v v2 = true
          · rw [if_neg hcv, if_pos hpe] at he
            exact absurd he (List.not_mem_nil e)
          · rw [if_neg hcv, if_neg hpe] at he
            obtain rfl := List.mem_singleton.mp he
            exact values_bounded_trunc _ _ v v2
    · exact ih2 e he hk

/-- C10: `value_changed` and `array_item_changed` entries always carry
stringified values truncated to at most 100 characters in
`value1`/`value2`, independently of `include_values`; and the
`include_values=False` run equals the `include_values=True` run with the
`value` field(s) of `field_missing_*`/`extra_item_*`/`type_changed`
entries replaced by `None`, all other entries unchanged. -/
theorem c10_value_fields_truncated_and_nullify (a b : Value) (path : List String) (iv : Bool) :
    deep_compare_structures a b path false = (deep_compare_structures a b path true).map nullify_entry ∧
    ∀ e ∈ deep_compare_structures a b path iv, isValueChangeKind e = true → values_bounded e = true :=
  ⟨dcs_nullify a b path iv, dcs_bounded a b path iv⟩

theorem c10_value_fields_truncated_and_nullify_witness :
    (deep_compare_structures (.dict [("x", .int 1)]) (.dict [("x", .int 2)]) [] false =
      (deep_compare_structures (.dict [("x", .int 1)]) (.dict [("x", .int 2)]) [] true).map nullify_entry) ∧
    values_bounded (Value.dict [("path", .str "x"), ("difference", .str "value_changed"),
                                ("value1", .str "1"), ("value2", .str "2")]) = true :=
  ⟨(c10_value_fields_truncated_and_nullify (.dict [("x", .int 1)]) (.dict [("x", .int 2)]) [] true).1,
   (c10_value_fields_truncated_and_nullify (.dict [("x", .int 1)]) (.dict [("x", .int 2)]) [] true).2
     (Value.dict [("path", .str "x"), ("difference", .str "value_changed"),
                  ("value1", .str "1"), ("value2", .str "2")])
     (List.mem_singleton.mpr rfl) rfl⟩
